import Mathlib

/-!
Verification of `src/quora_api_tools.py` (mcp-quora).

The repository is a thin proxy over a third-party Quora-scraping HTTP API:
a retrying request helper `make_api_request` plus five endpoint functions
that marshal parameters into a query mapping and delegate to it.

Shallow embedding choices:
* JSON values (`json.loads` results) are modelled by the inductive `Json`;
  numbers are modelled as integers, which is enough for every claim here.
* One network attempt (connection, send, receive, decode, `json.loads`)
  is an oracle value of type `Attempt`: either a raised transport
  exception carrying `str(e)`, or a completed round trip carrying the
  upstream status, the body text, and the outcome of `json.loads` on
  that body.
* A whole call's transport behaviour is an oracle `trace : Nat → Attempt`
  giving the outcome of each loop iteration (attempt 0, 1, 2).
* Python exceptions raised while classifying a completed round trip
  (notably `AttributeError` from `response_data.get` when the parsed
  body is not a dict) are modelled by `Except String`: the `.error`
  case is what the `except Exception` handler of the retry loop catches.
* `time.sleep(retry_wait)` calls are recorded in an observable list of
  sleep durations, and the number of loop iterations executed is
  recorded, so the temporal claims are statable.
-/

/-- A parsed JSON value, as produced by `json.loads`. Numbers are modelled
as integers (no claim depends on non-integral numerics). Objects keep
their fields as an ordered association list. -/
inductive Json where
  | null : Json
  | bool (b : Bool) : Json
  | num (n : Int) : Json
  | str (s : String) : Json
  | arr (elems : List Json) : Json
  | obj (fields : List (String × Json)) : Json

/-- First-match lookup in a JSON object's field list (Python dicts have
unique keys, so first-match agrees with the dict semantics). -/
def Json.lookupField : List (String × Json) → String → Option Json
  | [], _ => none
  | (k, v) :: rest, key => if k = key then some v else Json.lookupField rest key

/-- The Python type name of a JSON value, used in the modelled
`AttributeError` message text. -/
def Json.typeName : Json → String
  | .null => "NoneType"
  | .bool _ => "bool"
  | .num _ => "int"
  | .str _ => "str"
  | .arr _ => "list"
  | .obj _ => "dict"

/-- The Result Envelope: the dictionary returned by `make_api_request`.
`Option` models presence of the corresponding key in the returned dict
(the Python code builds each envelope literally, with different key
sets). `message` is `Option Json` because the `status >= 400` branch
copies `response_data.get('message', ...)`, which need not be a string. -/
structure ResultEnvelope where
  success : Bool
  status : Nat
  data : Option Json
  message : Option Json
  details : Option Json

/-- The outcome of one transport attempt of the retry loop, as seen by the
`try` block: either some exception was raised during connect/send/receive
(`exc`, carrying `str(e)`), or a round trip completed (`resp`, carrying
`res.status`, the decoded body text, and the result of `json.loads` on
that body — `Except.error` holds `str(e)` of the `JSONDecodeError`; the
parse field is irrelevant when the body is empty, since the code never
parses an empty body). -/
inductive Attempt where
  | exc (e : String) : Attempt
  | resp (status : Nat) (body : String) (parse : Except String Json) : Attempt

/-- `MAX_RETRIES = 3` (line 39 of the source). -/
def MAX_RETRIES : Nat := 3

/-- `RETRY_DELAY = 2` seconds (line 40 of the source). -/
def RETRY_DELAY : Nat := 2

/-- `data[:1000] if len(data) > 1000 else data` (line 118): the raw body
truncated to at most 1000 characters. -/
def truncate1000 (s : String) : String :=
  if s.length > 1000 then String.mk (s.data.take 1000) else s

/-- The modelled `AttributeError` raised by `response_data.get('message', ...)`
when the parsed body is not a dict. Only the fact that it is raised matters;
the text stands in for Python's message. -/
def attributeErrorMsg (j : Json) : String :=
  "AttributeError: " ++ j.typeName ++ " object has no attribute get"

/-- The body of the `try` block for one completed iteration (lines 81-126):
classify a transport attempt into a Result Envelope. `Except.error e`
models an exception propagating to the `except Exception` handler of the
loop — either the transport exception itself, or the `AttributeError`
from `.get` on a non-dict parsed body (the inner handler at line 109
catches only `json.JSONDecodeError`). -/
def processAttempt : Attempt → Except String ResultEnvelope
  | .exc e => .error e
  | .resp status body parse =>
    if body = "" then
      -- lines 120-126: empty body (note: no `details` key)
      .ok { success := false, status := status, data := none,
            message := some (.str "Empty response from API"), details := none }
    else
      match parse with
      | .error emsg =>
        -- lines 109-119: json.JSONDecodeError
        .ok { success := false, status := status, data := none,
              message := some (.str "Failed to decode JSON response"),
              details := some (.obj [("error", .str emsg),
                                     ("raw_data", .str (truncate1000 body))]) }
      | .ok responseData =>
        if 400 ≤ status then
          -- lines 91-101: response_data.get('message', 'Unknown API error')
          match responseData with
          | .obj fields =>
            .ok { success := false, status := status, data := none,
                  message := some ((Json.lookupField fields "message").getD
                                     (.str "Unknown API error")),
                  details := some (.obj fields) }
          | other => .error (attributeErrorMsg other)
        else
          -- lines 104-108: success envelope
          .ok { success := true, status := status, data := some responseData,
                message := none, details := none }

/-- Observable outcome of the `for attempt in range(MAX_RETRIES)` loop:
how many iterations ran, which sleeps were performed, and the envelope
returned from inside the loop (`none` iff the loop fell through). -/
structure LoopOut where
  attemptsMade : Nat
  sleeps : List Nat
  result : Option ResultEnvelope

/-- The retry loop (lines 62-148). `attempt` is the Python loop variable;
`remaining` is the number of iterations `range(MAX_RETRIES)` still has
(at the top-level call, `attempt = 0` and `remaining = MAX_RETRIES`).
On an exception, line 133 checks `attempt < MAX_RETRIES - 1`: if so, it
sleeps `RETRY_DELAY * (attempt + 1)` seconds and retries; otherwise it
returns the exhaustion envelope (lines 139-144). -/
def retryLoop (trace : Nat → Attempt) : Nat → Nat → LoopOut
  | _, 0 => { attemptsMade := 0, sleeps := [], result := none }
  | attempt, remaining + 1 =>
    match processAttempt (trace attempt) with
    | .ok env => { attemptsMade := 1, sleeps := [], result := some env }
    | .error e =>
      if attempt < MAX_RETRIES - 1 then
        let rest := retryLoop trace (attempt + 1) remaining
        { attemptsMade := rest.attemptsMade + 1,
          sleeps := RETRY_DELAY * (attempt + 1) :: rest.sleeps,
          result := rest.result }
      else
        { attemptsMade := 1, sleeps := [],
          result := some { success := false, status := 500, data := none,
                           message := some (.str ("Request failed after "
                                     ++ toString MAX_RETRIES ++ " attempts")),
                           details := some (.obj [("error", .str e)]) } }

/-- `QUORA_API_KEY` default (line 22; the environment override is modelled
by its hard-coded fallback). -/
def QUORA_API_KEY : String := "xxxx"

/-- `QUORA_API_HOST` default (line 23). -/
def QUORA_API_HOST : String := "quora-scraper.p.rapidapi.com"

/-- The default header set built when `headers is None` (lines 43-48). -/
def defaultHeaders : List (String × String) :=
  [("Content-Type", "application/json"),
   ("x-rapidapi-host", QUORA_API_HOST),
   ("x-rapidapi-key", QUORA_API_KEY)]

/-- The module-level `QUORA_HEADERS` constant (lines 158-162) passed by
every endpoint function. -/
def QUORA_HEADERS : List (String × String) :=
  [("Content-Type", "application/json"),
   ("x-rapidapi-host", QUORA_API_HOST),
   ("x-rapidapi-key", QUORA_API_KEY)]

/-- `urllib.parse.urlencode(params)`: keys and values joined as
`k=v` pairs separated by `&`, in mapping order, each component passed
through the library's percent-encoder, abstracted here as `enc`. -/
def urlencodeWith (enc : String → String) : List (String × String) → String
  | [] => ""
  | [p] => enc p.1 ++ "=" ++ enc p.2
  | p :: q :: rest => enc p.1 ++ "=" ++ enc p.2 ++ "&" ++ urlencodeWith enc (q :: rest)

/-- The query string built at lines 50-53: `"?" + urlencode(params)` when
`params` is truthy (non-empty) and the method is GET, else `""`. -/
def queryStringWith (enc : String → String) (method : String)
    (params : List (String × String)) : String :=
  if ¬ params.isEmpty ∧ method = "GET" then "?" ++ urlencodeWith enc params else ""

/-- The full observable result of one `make_api_request` call: the
returned envelope, the sleeps performed, and the number of attempts. -/
structure ApiCallResult where
  envelope : ResultEnvelope
  sleeps : List Nat
  attemptsMade : Nat

/-- `make_api_request` (lines 26-155): run the retry loop; if the loop
ever fell through, return the "Unexpected error in API request" fallback
envelope (lines 151-155). The request line itself (method, endpoint,
query string from `params`, headers) only determines what is sent
upstream, which the `trace` oracle already reflects, so it does not
otherwise enter the computation of the envelope. -/
def make_api_request (method endpoint : String) (params : List (String × String))
    (headers : Option (List (String × String))) (trace : Nat → Attempt) : ApiCallResult :=
  let _sentHeaders := headers.getD defaultHeaders
  let _target := endpoint
  let _ := method
  let _ := params
  let out := retryLoop trace 0 MAX_RETRIES
  { envelope := out.result.getD
      { success := false, status := 500, data := none,
        message := some (.str "Unexpected error in API request"), details := none },
    sleeps := out.sleeps,
    attemptsMade := out.attemptsMade }

/-- Python truthiness of an optional string argument (`if cursor:`):
true iff the argument was supplied and is non-empty. -/
def optTruthy : Option String → Bool
  | some s => ¬ s.isEmpty
  | none => false

/-- The conditional insertion pattern `if cursor: params["cursor"] = cursor`
shared by every endpoint: the entries appended for one optional field. -/
def optEntry (key : String) (v : Option String) : List (String × String) :=
  match v with
  | some s => if ¬ s.isEmpty then [(key, s)] else []
  | none => []

/-- The Request Parameters mapping built by `search_questions`
(lines 177-187): `query` and `language` always, then `cursor` and `time`
only when truthy, in insertion order. -/
def search_questions_params (query language : String)
    (cursor time : Option String) : List (String × String) :=
  [("query", query), ("language", language)]
    ++ optEntry "cursor" cursor ++ optEntry "time" time

/-- The Request Parameters mapping built by `search_answers` (lines 205-215). -/
def search_answers_params (query language : String)
    (cursor time : Option String) : List (String × String) :=
  [("query", query), ("language", language)]
    ++ optEntry "cursor" cursor ++ optEntry "time" time

/-- The Request Parameters mapping built by `search_profiles` (lines 232-239). -/
def search_profiles_params (query language : String)
    (cursor : Option String) : List (String × String) :=
  [("query", query), ("language", language)] ++ optEntry "cursor" cursor

/-- The Request Parameters mapping built by `question_answers` (lines 256-265). -/
def question_answers_params (url : String)
    (cursor sort : Option String) : List (String × String) :=
  [("url", url)] ++ optEntry "cursor" cursor ++ optEntry "sort" sort

/-- The Request Parameters mapping built by `question_comments` (lines 281-287). -/
def question_comments_params (url : String)
    (cursor : Option String) : List (String × String) :=
  [("url", url)] ++ optEntry "cursor" cursor

/-- What an endpoint function returns to its caller: either the Result
Envelope from `make_api_request`, or — when a local exception occurs in
the endpoint's own `try` block — the ad-hoc error object
`{"error": str(e), "exception_type": type(e).__name__}`. Raising is not
representable: the `except Exception` handler converts every local
exception into `errObj`. -/
inductive ToolResult where
  | env (envelope : ResultEnvelope) : ToolResult
  | errObj (error : String) (exception_type : String) : ToolResult

/-- A possible local exception inside an endpoint's `try` block, as an
oracle: `str(e)` and `type(e).__name__`. `none` means the local code runs
without raising (the modelled params construction itself cannot fail;
this oracle stands for failures the source guards against, e.g. from the
hosting framework). -/
def LocalExc := Option (String × String)

/-- `search_questions` (lines 167-192). -/
def search_questions (query language : String) (cursor time : Option String)
    (localExc : LocalExc) (trace : Nat → Attempt) : ToolResult :=
  match localExc with
  | some ex => .errObj ex.1 ex.2
  | none => .env (make_api_request "GET" "/search_questions"
      (search_questions_params query language cursor time) (some QUORA_HEADERS) trace).envelope

/-- `search_answers` (lines 195-220). -/
def search_answers (query language : String) (cursor time : Option String)
    (localExc : LocalExc) (trace : Nat → Attempt) : ToolResult :=
  match localExc with
  | some ex => .errObj ex.1 ex.2
  | none => .env (make_api_request "GET" "/search_answers"
      (search_answers_params query language cursor time) (some QUORA_HEADERS) trace).envelope

/-- `search_profiles` (lines 223-244). -/
def search_profiles (query language : String) (cursor : Option String)
    (localExc : LocalExc) (trace : Nat → Attempt) : ToolResult :=
  match localExc with
  | some ex => .errObj ex.1 ex.2
  | none => .env (make_api_request "GET" "/search_profiles"
      (search_profiles_params query language cursor) (some QUORA_HEADERS) trace).envelope

/-- `question_answers` (lines 247-270). -/
def question_answers (url : String) (cursor sort : Option String)
    (localExc : LocalExc) (trace : Nat → Attempt) : ToolResult :=
  match localExc with
  | some ex => .errObj ex.1 ex.2
  | none => .env (make_api_request "GET" "/question_answers"
      (question_answers_params url cursor sort) (some QUORA_HEADERS) trace).envelope

/-- `question_comments` (lines 273-292). -/
def question_comments (url : String) (cursor : Option String)
    (localExc : LocalExc) (trace : Nat → Attempt) : ToolResult :=
  match localExc with
  | some ex => .errObj ex.1 ex.2
  | none => .env (make_api_request "GET" "/question_comments"
      (question_comments_params url cursor) (some QUORA_HEADERS) trace).envelope

lemma make_api_request_firstOk (method endpoint : String) (params : List (String × String))
    (headers : Option (List (String × String))) (trace : Nat → Attempt) (env : ResultEnvelope)
    (h : processAttempt (trace 0) = .ok env) :
    make_api_request method endpoint params headers trace =
      { envelope := env, sleeps := [], attemptsMade := 1 } := by
  simp [make_api_request, MAX_RETRIES, retryLoop, h]

lemma retryLoop_result_isSome (trace : Nat → Attempt) :
    ∀ remaining attempt, attempt + remaining = MAX_RETRIES → 0 < remaining →
      (retryLoop trace attempt remaining).result.isSome := by
  intro remaining
  induction remaining with
  | zero => intro attempt _ h0; exact absurd h0 (by simp)
  | succ r ih =>
    intro attempt hsum _
    cases hp : processAttempt (trace attempt) with
    | ok env => simp [retryLoop, hp]
    | error e =>
      by_cases hlt : attempt < MAX_RETRIES - 1
      · have hr : 0 < r := by
          simp [MAX_RETRIES] at hsum hlt; omega
        have hsum2 : attempt + 1 + r = MAX_RETRIES := by
          simp [MAX_RETRIES] at hsum ⊢; omega
        simpa [retryLoop, hp, hlt] using ih (attempt + 1) hsum2 hr
      · simp [retryLoop, hp, hlt]

def envInvariant (env : ResultEnvelope) : Prop :=
  (env.data.isSome ↔ env.success = true) ∧
  (env.message.isSome ↔ env.success = false) ∧
  (env.success = false → env.details = none →
    env.message = some (Json.str "Empty response from API"))

lemma processAttempt_ok_inv (a : Attempt) (env : ResultEnvelope)
    (h : processAttempt a = .ok env) : envInvariant env := by
  cases a with
  | exc e => simp [processAttempt] at h
  | resp s body parse =>
    simp only [processAttempt] at h
    split at h
    · injection h with h; subst h; simp [envInvariant]
    · split at h
      · injection h with h; subst h; simp [envInvariant]
      · split at h
        · split at h <;> first
            | (injection h with h; subst h; simp [envInvariant])
            | simp at h
        · injection h with h; subst h; simp [envInvariant]

lemma retryLoop_result_inv (trace : Nat → Attempt) :
    ∀ remaining attempt env,
      (retryLoop trace attempt remaining).result = some env → envInvariant env := by
  intro remaining
  induction remaining with
  | zero => intro attempt env h; simp [retryLoop] at h
  | succ r ih =>
    intro attempt env h
    cases hp : processAttempt (trace attempt) with
    | ok env2 =>
      simp [retryLoop, hp] at h
      subst h
      exact processAttempt_ok_inv _ _ hp
    | error e =>
      by_cases hlt : attempt < MAX_RETRIES - 1
      · simp [retryLoop, hp, hlt] at h
        exact ih (attempt + 1) env h
      · simp [retryLoop, hp, hlt] at h
        subst h
        simp [envInvariant]

/-- Every key in the entries contributed by one optional parameter is that
parameter's key. -/
lemma mem_optEntry_map_fst (k key : String) (v : Option String)
    (h : k ∈ (optEntry key v).map Prod.fst) : k = key := by
  cases v with
  | none => simp [optEntry] at h
  | some s =>
    by_cases hs : s.isEmpty <;> simp [optEntry, hs] at h
    exact h

/-- Claim C1 (counterexample): an empty-body response yields a failure
envelope (`success = false`) whose `message` key is present but whose
`details` key is absent, so it is not the case that `message` and
`details` are both populated exactly when `success` is false. -/
theorem C1_counterexample :
    ((make_api_request "GET" "/search_questions" [] none
        (fun _ => .resp 200 "" (.error ""))).envelope.success = false) ∧
    ((make_api_request "GET" "/search_questions" [] none
        (fun _ => .resp 200 "" (.error ""))).envelope.message.isSome = true) ∧
    ((make_api_request "GET" "/search_questions" [] none
        (fun _ => .resp 200 "" (.error ""))).envelope.details = none) :=
  ⟨rfl, rfl, rfl⟩

/-- Claim C1 (amended): every Result Envelope returned by
`make_api_request` satisfies: `data` is populated iff `success` is true,
`message` is populated iff `success` is false, and on failure `details`
is also populated except in the empty-body envelope (the one whose
message is "Empty response from API"), which carries no `details`. -/
theorem C1_envelope_invariant (method endpoint : String)
    (params : List (String × String)) (headers : Option (List (String × String)))
    (trace : Nat → Attempt) :
    envInvariant (make_api_request method endpoint params headers trace).envelope := by
  obtain ⟨env, henv⟩ := Option.isSome_iff_exists.mp
    (retryLoop_result_isSome trace MAX_RETRIES 0 (by simp) (by simp [MAX_RETRIES]))
  have heq : (make_api_request method endpoint params headers trace).envelope = env := by
    simp [make_api_request, henv]
  rw [heq]
  exact retryLoop_result_inv trace MAX_RETRIES 0 env henv

/-- Claim C2 (counterexample): a round trip with non-empty body `"[]"`,
which is valid JSON, and upstream status 400 does not produce a
status-400 failure envelope without retry: `response_data.get` raises
`AttributeError` on the parsed list, the attempt is treated as a
transport failure and retried, and after 3 attempts the call returns the
exhaustion envelope with status 500 having slept 2 and 4 seconds. -/
theorem C2_counterexample :
    ((make_api_request "GET" "/search_questions" [] none
        (fun _ => .resp 400 "[]" (.ok (.arr [])))).envelope.status = 500) ∧
    ((make_api_request "GET" "/search_questions" [] none
        (fun _ => .resp 400 "[]" (.ok (.arr [])))).attemptsMade = 3) ∧
    ((make_api_request "GET" "/search_questions" [] none
        (fun _ => .resp 400 "[]" (.ok (.arr [])))).sleeps = [2, 4]) :=
  ⟨rfl, rfl, rfl⟩

/-- Claim C2 (amended): for every transport round trip whose body is
non-empty and parses as a JSON object and whose upstream status is
≥ 400, `make_api_request` returns without any retry a failure envelope
with `success = false`, `status` the upstream status, `message` the
parsed body's `message` field when present and "Unknown API error"
otherwise, and `details` the full parsed body. (When the valid JSON body
is not an object, `.get` raises and the attempt is retried instead.) -/
theorem C2_upstream_error_envelope (method endpoint : String)
    (params : List (String × String)) (headers : Option (List (String × String)))
    (trace : Nat → Attempt) (s : Nat) (body : String) (fields : List (String × Json))
    (h0 : trace 0 = .resp s body (.ok (.obj fields)))
    (hb : body ≠ "") (hs : 400 ≤ s) :
    make_api_request method endpoint params headers trace =
      { envelope := { success := false, status := s, data := none,
                      message := some ((Json.lookupField fields "message").getD
                                         (.str "Unknown API error")),
                      details := some (.obj fields) },
        sleeps := [], attemptsMade := 1 } := by
  apply make_api_request_firstOk
  simp [processAttempt, h0, hb, hs]

/-- Witness for C2: a 404 round trip whose object body carries a
`message` field surfaces that message, with one attempt and no sleep. -/
theorem C2_witness :
    make_api_request "GET" "/search_questions" [] none
        (fun _ => .resp 404 "x" (.ok (.obj [("message", Json.str "Not Found")]))) =
      { envelope := { success := false, status := 404, data := none,
                      message := some (Json.str "Not Found"),
                      details := some (.obj [("message", Json.str "Not Found")]) },
        sleeps := [], attemptsMade := 1 } :=
  C2_upstream_error_envelope "GET" "/search_questions" [] none
    (fun _ => .resp 404 "x" (.ok (.obj [("message", Json.str "Not Found")])))
    404 "x" [("message", Json.str "Not Found")] rfl (by decide) (by decide)

/-- Claim C3: when every transport attempt raises, exactly 3 attempts
are made, the executor sleeps 2 seconds before attempt 2 and 4 seconds
before attempt 3 and nothing after the third, and the call returns the
exhaustion envelope: `success = false`, `status = 500`, message
"Request failed after 3 attempts", details carrying the last
exception text. -/
theorem C3_retry_exhaustion (method endpoint : String)
    (params : List (String × String)) (headers : Option (List (String × String)))
    (trace : Nat → Attempt) (es : Nat → String)
    (h : ∀ i, i < MAX_RETRIES → trace i = .exc (es i)) :
    make_api_request method endpoint params headers trace =
      { envelope := { success := false, status := 500, data := none,
                      message := some (.str "Request failed after 3 attempts"),
                      details := some (.obj [("error", .str (es 2))]) },
        sleeps := [2, 4], attemptsMade := 3 } := by
  have h0 := h 0 (by simp [MAX_RETRIES])
  have h1 := h 1 (by simp [MAX_RETRIES])
  have h2 := h 2 (by simp [MAX_RETRIES])
  simp [make_api_request, MAX_RETRIES, retryLoop, h0, h1, h2, processAttempt, RETRY_DELAY]
  decide

/-- Witness for C3: a trace whose every attempt raises "boom". -/
theorem C3_witness :
    make_api_request "GET" "/search_questions" [] none (fun _ => .exc "boom") =
      { envelope := { success := false, status := 500, data := none,
                      message := some (.str "Request failed after 3 attempts"),
                      details := some (.obj [("error", .str "boom")]) },
        sleeps := [2, 4], attemptsMade := 3 } :=
  C3_retry_exhaustion "GET" "/search_questions" [] none
    (fun _ => .exc "boom") (fun _ => "boom") (fun _ _ => rfl)

/-- Claim C4: a round trip with non-empty valid-JSON body and upstream
status < 400 yields, without retry, a success envelope: `success = true`,
`status` the upstream status, `data` exactly the parsed body (whatever
JSON value it is). -/
theorem C4_success_envelope (method endpoint : String)
    (params : List (String × String)) (headers : Option (List (String × String)))
    (trace : Nat → Attempt) (s : Nat) (body : String) (j : Json)
    (h0 : trace 0 = .resp s body (.ok j)) (hb : body ≠ "") (hs : s < 400) :
    make_api_request method endpoint params headers trace =
      { envelope := { success := true, status := s, data := some j,
                      message := none, details := none },
        sleeps := [], attemptsMade := 1 } := by
  have hs2 : ¬ 400 ≤ s := by omega
  apply make_api_request_firstOk
  simp [processAttempt, h0, hb, hs2]

/-- Witness for C4: a 200 round trip with body parsing to `[1]`. -/
theorem C4_witness :
    make_api_request "GET" "/search_questions" [] none
        (fun _ => .resp 200 "[1]" (.ok (.arr [.num 1]))) =
      { envelope := { success := true, status := 200, data := some (.arr [.num 1]),
                      message := none, details := none },
        sleeps := [], attemptsMade := 1 } :=
  C4_success_envelope "GET" "/search_questions" [] none
    (fun _ => .resp 200 "[1]" (.ok (.arr [.num 1])))
    200 "[1]" (.arr [.num 1]) rfl (by decide) (by decide)

/-- Claim C5: an empty response body yields, without retry and for every
upstream status code (including statuses < 400), a failure envelope with
`success = false`, `status` the upstream status, and message
"Empty response from API" (and no `data` or `details` key). -/
theorem C5_empty_body (method endpoint : String)
    (params : List (String × String)) (headers : Option (List (String × String)))
    (trace : Nat → Attempt) (s : Nat) (parse : Except String Json)
    (h0 : trace 0 = .resp s "" parse) :
    make_api_request method endpoint params headers trace =
      { envelope := { success := false, status := s, data := none,
                      message := some (.str "Empty response from API"),
                      details := none },
        sleeps := [], attemptsMade := 1 } := by
  apply make_api_request_firstOk
  simp [processAttempt, h0]

/-- Witness for C5: an empty body with status 200 (< 400) still fails. -/
theorem C5_witness :
    make_api_request "GET" "/search_questions" [] none
        (fun _ => .resp 200 "" (.error "")) =
      { envelope := { success := false, status := 200, data := none,
                      message := some (.str "Empty response from API"),
                      details := none },
        sleeps := [], attemptsMade := 1 } :=
  C5_empty_body "GET" "/search_questions" [] none
    (fun _ => .resp 200 "" (.error "")) 200 (.error "") rfl

/-- Claim C6: with no cursor and no time supplied, `search_questions`
transmits exactly the parameters `query` and `language` with the given
values, in that order; its query string (for any percent-encoder) is
exactly `?query=<q>&language=<l>`; and an omitted optional parameter
never appears in the transmitted mapping under any setting of the other
optional. -/
theorem C6_search_questions_mapping (q l : String) :
    search_questions_params q l none none = [("query", q), ("language", l)] ∧
    (∀ enc : String → String,
      queryStringWith enc "GET" (search_questions_params q l none none) =
        "?" ++ enc "query" ++ "=" ++ enc q ++ "&" ++ enc "language" ++ "=" ++ enc l) ∧
    (∀ c t : Option String,
      "cursor" ∉ (search_questions_params q l none t).map Prod.fst ∧
      "time" ∉ (search_questions_params q l c none).map Prod.fst) := by
  refine ⟨rfl, fun enc => ?_, fun c t => ⟨fun hmem => ?_, fun hmem => ?_⟩⟩
  · simp [queryStringWith, urlencodeWith, search_questions_params, optEntry, String.append_assoc]
  · simp [search_questions_params, optEntry] at hmem
    exact absurd (mem_optEntry_map_fst _ _ _ (by simpa [optEntry] using hmem)) (by decide)
  · simp [search_questions_params, optEntry] at hmem
    exact absurd (mem_optEntry_map_fst _ _ _ (by simpa [optEntry] using hmem)) (by decide)

/-- Claim C7: a non-empty body that fails JSON decoding yields, without
retry, a failure envelope with the upstream status, message
"Failed to decode JSON response", and details whose `error` field is the
(non-empty) decoder error text and whose `raw_data` field is the raw
body truncated to at most 1000 characters. -/
theorem C7_decode_error (method endpoint : String)
    (params : List (String × String)) (headers : Option (List (String × String)))
    (trace : Nat → Attempt) (s : Nat) (body emsg : String)
    (h0 : trace 0 = .resp s body (.error emsg)) (hb : body ≠ "") (he : emsg ≠ "") :
    (make_api_request method endpoint params headers trace =
      { envelope := { success := false, status := s, data := none,
                      message := some (.str "Failed to decode JSON response"),
                      details := some (.obj [("error", .str emsg),
                                             ("raw_data", .str (truncate1000 body))]) },
        sleeps := [], attemptsMade := 1 }) ∧
    (truncate1000 body).length ≤ 1000 ∧ emsg ≠ "" := by
  refine ⟨?_, ?_, he⟩
  · apply make_api_request_firstOk
    simp [processAttempt, h0, hb]
  · unfold truncate1000
    split
    · have hlen : (String.mk (body.data.take 1000)).length = (body.data.take 1000).length := rfl
      rw [hlen]
      exact List.length_take_le 1000 body.data
    · omega

/-- Witness for C7: a malformed body "notjson" with the decoder text
"Expecting value". -/
theorem C7_witness :
    (make_api_request "GET" "/search_questions" [] none
        (fun _ => .resp 200 "notjson" (.error "Expecting value")) =
      { envelope := { success := false, status := 200, data := none,
                      message := some (.str "Failed to decode JSON response"),
                      details := some (.obj [("error", .str "Expecting value"),
                                             ("raw_data", .str (truncate1000 "notjson"))]) },
        sleeps := [], attemptsMade := 1 }) ∧
    (truncate1000 "notjson").length ≤ 1000 ∧ ("Expecting value" : String) ≠ "" :=
  C7_decode_error "GET" "/search_questions" [] none
    (fun _ => .resp 200 "notjson" (.error "Expecting value"))
    200 "notjson" "Expecting value" rfl (by decide) (by decide)

/-- Claim C8: no endpoint function raises to its caller: for every
input, every local-exception outcome and every transport trace, each of
the five endpoints returns a value that is either a Result Envelope or
the ad-hoc error object (the `errObj` shape built by the endpoint's
exception handler). -/
theorem C8_endpoints_never_raise (q l u : String) (c t srt : Option String)
    (ex : LocalExc) (trace : Nat → Attempt) :
    ((∃ env, search_questions q l c t ex trace = .env env) ∨
      ∃ m ty, search_questions q l c t ex trace = .errObj m ty) ∧
    ((∃ env, search_answers q l c t ex trace = .env env) ∨
      ∃ m ty, search_answers q l c t ex trace = .errObj m ty) ∧
    ((∃ env, search_profiles q l c ex trace = .env env) ∨
      ∃ m ty, search_profiles q l c ex trace = .errObj m ty) ∧
    ((∃ env, question_answers u c srt ex trace = .env env) ∨
      ∃ m ty, question_answers u c srt ex trace = .errObj m ty) ∧
    ((∃ env, question_comments u c ex trace = .env env) ∨
      ∃ m ty, question_comments u c ex trace = .errObj m ty) := by
  refine ⟨?_, ?_, ?_, ?_, ?_⟩ <;>
    cases ex with
    | none => exact Or.inl ⟨_, rfl⟩
    | some p => exact Or.inr ⟨p.1, p.2, rfl⟩

/-- Claim C9: for every endpoint, supplying an optional parameter as the
empty string builds the same Request Parameters mapping as omitting it:
the `if cursor:` truthiness test excludes falsy values, not only absent
ones. -/
theorem C9_empty_string_like_omitted (q l u : String) (c t srt : Option String) :
    search_questions_params q l (some "") t = search_questions_params q l none t ∧
    search_questions_params q l c (some "") = search_questions_params q l c none ∧
    search_answers_params q l (some "") t = search_answers_params q l none t ∧
    search_answers_params q l c (some "") = search_answers_params q l c none ∧
    search_profiles_params q l (some "") = search_profiles_params q l none ∧
    question_answers_params u (some "") srt = question_answers_params u none srt ∧
    question_answers_params u c (some "") = question_answers_params u c none ∧
    question_comments_params u (some "") = question_comments_params u none :=
  ⟨rfl, rfl, rfl, rfl, rfl, rfl, rfl, rfl⟩

/-- Claim C10: the post-loop fallback envelope of `make_api_request`
("Unexpected error in API request") is unreachable: for every transport
trace the retry loop itself produces the envelope the function returns. -/
theorem C10_fallback_unreachable (method endpoint : String)
    (params : List (String × String)) (headers : Option (List (String × String)))
    (trace : Nat → Attempt) :
    ∃ env, (retryLoop trace 0 MAX_RETRIES).result = some env ∧
      (make_api_request method endpoint params headers trace).envelope = env := by
  obtain ⟨env, henv⟩ := Option.isSome_iff_exists.mp
    (retryLoop_result_isSome trace MAX_RETRIES 0 (by simp) (by simp [MAX_RETRIES]))
  exact ⟨env, henv, by simp [make_api_request, henv]⟩

/-- Witness for C1: the invariant evaluated on an all-exceptions trace. -/
theorem C1_witness :
    envInvariant (make_api_request "GET" "/search_questions" [] none
      (fun _ => .exc "down")).envelope :=
  C1_envelope_invariant "GET" "/search_questions" [] none (fun _ => .exc "down")

/-- Witness for C6: the mapping for `search_questions("cars", "en")`
with no optional parameters. -/
theorem C6_witness :
    search_questions_params "cars" "en" none none =
      [("query", "cars"), ("language", "en")] :=
  (C6_search_questions_mapping "cars" "en").1

/-- Witness for C8: a concrete call of each shape. -/
theorem C8_witness :
    ((∃ env, search_questions "cars" "en" none none none
        (fun _ => .exc "down") = .env env) ∨
      ∃ m ty, search_questions "cars" "en" none none none
        (fun _ => .exc "down") = .errObj m ty) ∧
    ((∃ env, question_comments "u" none (some ("bad", "TypeError"))
        (fun _ => .exc "down") = .env env) ∨
      ∃ m ty, question_comments "u" none (some ("bad", "TypeError"))
        (fun _ => .exc "down") = .errObj m ty) :=
  ⟨(C8_endpoints_never_raise "cars" "en" "u" none none none none
      (fun _ => .exc "down")).1,
   (C8_endpoints_never_raise "cars" "en" "u" none none none
      (some ("bad", "TypeError")) (fun _ => .exc "down")).2.2.2.2⟩

/-- Witness for C9: empty-string cursor on concrete arguments. -/
theorem C9_witness :
    search_questions_params "cars" "en" (some "") none =
      search_questions_params "cars" "en" none none :=
  (C9_empty_string_like_omitted "cars" "en" "u" none none none).1

/-- Witness for C10: the loop produces the returned envelope on an
all-exceptions trace. -/
theorem C10_witness :
    ∃ env, (retryLoop (fun _ => .exc "down") 0 MAX_RETRIES).result = some env ∧
      (make_api_request "GET" "/search_questions" [] none
        (fun _ => .exc "down")).envelope = env :=
  C10_fallback_unreachable "GET" "/search_questions" [] none (fun _ => .exc "down")
